import Mathlib

/-!
Shallow embedding of `src/core/core.py` (phynum). Machine floats are
modelled as exact rationals; where IEEE special values (NaN, infinities)
drive the control flow of the source, a dedicated `PFloat` type models
them explicitly. Python exceptions are modelled with `Except PyErr`.
-/

namespace Phynum

/-- Python exceptions raised by the embedded functions, with their message
text (apostrophes present in the original messages are dropped, since only
the exception class and the identifiers in the message matter here). -/
inductive PyErr
  | valueErr (msg : String)
  | typeErr (msg : String)
  | indexErr (msg : String)
  | keyErr (msg : String)
  | warning (msg : String)
deriving DecidableEq

/-- Squared-distance part of `get_dist` (core.py 192-207): the source first
builds `deltas` by zipping the two sequences (`zip` truncates to the shorter
one), then sums the squared deltas. -/
def get_dist_sq (coords1 coords2 : List ℚ) : ℚ :=
  (((coords1.zip coords2).map (fun p => p.2 - p.1)).map (fun d => d ^ 2)).sum

/-- Embeds `get_dist` (core.py 192-207): `summe ** .5` on the sum of squared
deltas of the zipped sequences. -/
noncomputable def get_dist (coords1 coords2 : List ℚ) : ℝ :=
  Real.sqrt (get_dist_sq coords1 coords2)

/-- Embeds `get_deltas` (core.py 209-224): `offset = [0] + iterable`,
`deltas = [it - off for off, it in zip(offset, iterable)]`, then
`del deltas[0]`, which raises IndexError on an empty list. -/
def get_deltas (iterable : List ℚ) : Except PyErr (List ℚ) :=
  let offset : List ℚ := 0 :: iterable
  let deltas := List.zipWith (fun off it => it - off) offset iterable
  match deltas with
  | [] => .error (.indexErr "list assignment index out of range")
  | _ :: rest => .ok rest

/-- A labeled pandas series row: association list from labels to values. -/
abbrev PdSeries := List (String × ℚ)

/-- Membership test `coord in series.index`. -/
def seriesHas (s : PdSeries) (c : String) : Bool := (s.lookup c).isSome

/-- Lookup `series.loc[coord]` (only used under a `seriesHas` guard). -/
def seriesGet (s : PdSeries) (c : String) : ℚ := (s.lookup c).getD 0

/-- Accumulator loop of `pd_dist` (core.py 179-190): walk `coords`; for the
first axis missing from either series raise
`KeyError("Key " + coord + " missing from series.")`, else accumulate the
squared difference. -/
def pd_dist_aux : PdSeries → PdSeries → List String → ℚ → Except PyErr ℚ
  | _, _, [], total => .ok total
  | s1, s2, c :: rest, total =>
    if seriesHas s1 c && seriesHas s2 c then
      pd_dist_aux s1 s2 rest (total + (seriesGet s2 c - seriesGet s1 c) ^ 2)
    else .error (.keyErr ("Key " ++ c ++ " missing from series."))

/-- Default second argument of `pd_dist`: the origin series
`pd.Series({x: 0, y: 0, z: 0})`. -/
def pdOrigin : PdSeries := [("x", 0), ("y", 0), ("z", 0)]

/-- Embeds `pd_dist` (core.py 179-190); the source's default arguments are
`pdOrigin` and `["x", "y", "z"]`, passed explicitly at use sites here. -/
noncomputable def pd_dist (s1 s2 : PdSeries) (coords : List String) : Except PyErr ℝ :=
  (pd_dist_aux s1 s2 coords 0).map (fun t => Real.sqrt (t : ℝ))

/-- IEEE-style float values as exact rationals plus the special values that
drive `get_cubic_weight`'s control flow (NaN and the signed infinities). -/
inductive PFloat
  | nan
  | pinf
  | ninf
  | fin (q : ℚ)
deriving DecidableEq

/-- IEEE division on `PFloat`: finite by finite follows rational division
except for a zero denominator, where 0/0 is NaN and x/0 is a signed
infinity; NaN propagates; a finite value over an infinity is 0. -/
def pfDiv : PFloat → PFloat → PFloat
  | .nan, _ => .nan
  | _, .nan => .nan
  | .fin a, .fin b =>
    if b = 0 then (if a = 0 then .nan else if a > 0 then .pinf else .ninf)
    else .fin (a / b)
  | .fin _, .pinf => .fin 0
  | .fin _, .ninf => .fin 0
  | .pinf, .fin b => if b ≥ 0 then .pinf else .ninf
  | .ninf, .fin b => if b ≥ 0 then .ninf else .pinf
  | .pinf, .pinf => .nan
  | .pinf, .ninf => .nan
  | .ninf, .pinf => .nan
  | .ninf, .ninf => .nan

/-- IEEE multiplication on `PFloat` (used for the cube): NaN propagates,
infinity times zero is NaN, otherwise signs combine. -/
def pfMul : PFloat → PFloat → PFloat
  | .nan, _ => .nan
  | _, .nan => .nan
  | .fin a, .fin b => .fin (a * b)
  | .fin a, .pinf => if a > 0 then .pinf else if a < 0 then .ninf else .nan
  | .fin a, .ninf => if a > 0 then .ninf else if a < 0 then .pinf else .nan
  | .pinf, .fin b => if b > 0 then .pinf else if b < 0 then .ninf else .nan
  | .ninf, .fin b => if b > 0 then .ninf else if b < 0 then .pinf else .nan
  | .pinf, .pinf => .pinf
  | .pinf, .ninf => .ninf
  | .ninf, .pinf => .ninf
  | .ninf, .ninf => .pinf

/-- IEEE addition on `PFloat` (used for the pandas sum): NaN propagates and
opposite infinities give NaN. -/
def pfAdd : PFloat → PFloat → PFloat
  | .nan, _ => .nan
  | _, .nan => .nan
  | .fin a, .fin b => .fin (a + b)
  | .fin _, .pinf => .pinf
  | .fin _, .ninf => .ninf
  | .pinf, .fin _ => .pinf
  | .ninf, .fin _ => .ninf
  | .pinf, .pinf => .pinf
  | .pinf, .ninf => .nan
  | .ninf, .pinf => .nan
  | .ninf, .ninf => .ninf

/-- Cube `w ** 3` on `PFloat`. -/
def pfPow3 (w : PFloat) : PFloat := pfMul w (pfMul w w)

/-- Pandas `Series.sum()` with its default `skipna=True`: NaN entries are
dropped before summing, and an all-NaN or empty series sums to 0. -/
def pfSum (l : List PFloat) : PFloat :=
  (l.filter (fun w => w ≠ .nan)).foldl pfAdd (.fin 0)

/-- Pandas `fillna(0)`. -/
def fillna0 (w : PFloat) : PFloat := if w = .nan then .fin 0 else w

/-- Embeds `get_cubic_weight` (core.py 172-177) on a series of plain numeric
distances: `closest = min(pd_ser)`, `weights = (closest / pd_ser) ** 3`,
`(weights / weights.sum()).fillna(0)`. Python's `min` raises ValueError on
an empty series; that case is out of scope here and `min?.getD 0` stands in
for it. -/
def get_cubic_weight (pd_ser : List ℚ) : List PFloat :=
  let closest : ℚ := pd_ser.min?.getD 0
  let weights := pd_ser.map (fun d => pfPow3 (pfDiv (.fin closest) (.fin d)))
  let s := pfSum weights
  (weights.map (fun w => pfDiv w s)).map fillna0

/-- Embeds lines 150-153 of `linterp_1D` (core.py 147-170), the handling of
the `ignore` argument. The first component is the state of the caller's
argument after the call (`none` when the caller passed `None`), the second
the list the function goes on to use. Python's `if ignore:` is falsy both
for `None` and for an empty list, so only a non-empty list is mutated in
place by `ignore.append(colname)`; otherwise a fresh list `[colname]` is
bound locally and the caller's object is untouched. -/
def linterp_1D_ignore (ignore : Option (List String)) (colname : String) :
    Option (List String) × List String :=
  match ignore with
  | none => (none, [colname])
  | some l =>
    if l = [] then (some l, [colname])
    else (some (l ++ [colname]), l ++ [colname])

/-- Coordinate specifications accepted by `NodeDataFrame.__init__`
(core.py 62-106): a mapping from column names to booleans, a list of column
names, a list of booleans, or some other non-mapping non-sequence value
(`other`, e.g. an integer). -/
inductive CoordsSpec
  | dict (entries : List (String × Bool))
  | strList (l : List String)
  | boolList (l : List Bool)
  | other
deriving DecidableEq

/-- Units specifications accepted by `NodeDataFrame.__init__`
(core.py 37-59): a mapping from column names to unit strings, a positional
list of unit strings, or some other truthy value without `items` and
`len` (`scalar`, e.g. a number). -/
inductive UnitsSpec
  | dict (entries : List (String × String))
  | list (entries : List String)
  | scalar
deriving DecidableEq

/-- Python truthiness of a units value: empty mappings and lists are falsy
and take the `units = {}` branch. -/
def unitsTruthy : UnitsSpec → Bool
  | .dict entries => entries ≠ []
  | .list entries => entries ≠ []
  | .scalar => true

/-- Embeds the units block of `NodeDataFrame.__init__` (core.py 37-59).
Every `raise Warning(...)` in that block escapes: the surrounding handlers
catch only AttributeError or TypeError, so the Warning aborts construction
and any statement after the `raise` (such as `units = {}`) is dead code. -/
def processUnits (columns : List String) (units : Option UnitsSpec) :
    Except PyErr (List (String × String)) :=
  match units with
  | none => .ok []
  | some spec =>
    if unitsTruthy spec then
      match spec with
      | .dict entries =>
        match entries.find? (fun e => !columns.contains e.1) with
        | some e => .error (.warning ("Coord " ++ e.1 ++ " not in column names"))
        | none => .ok entries
      | .list entries =>
        if entries.length ≠ columns.length then
          .error (.warning "Number of units doesnt match number of columns.")
        else .ok (columns.zip entries)
      | .scalar => .error (.warning "Ill-defined units. Proceeding without units.")
    else .ok []

/-- Embeds the coords block of `NodeDataFrame.__init__` (core.py 62-106).
For a mapping, the per-iteration checks are: values must be booleans (made
impossible here by typing), the mapping must not be larger than the column
list (ValueError), and a key absent from the columns raises a Warning that
escapes (the `columns.append` after it is dead code). For a list, Python
first evaluates `coords[0]`, which raises a bare IndexError on an empty
list; a list of strings raises the same escaping Warning on a name absent
from the columns; a list of booleans whose length differs from the column
count raises the explicit IndexError of line 95, which no handler catches
(the `except TypeError` does not match it). Any other shape raises the
TypeError of line 105. -/
def processCoords (columns : List String) (coords : CoordsSpec) :
    Except PyErr (List (String × Bool)) :=
  match coords with
  | .dict entries =>
    if entries ≠ [] ∧ entries.length > columns.length then
      .error (.valueErr "Cannot have more coordinates than named columns.")
    else
      match entries.find? (fun e => !columns.contains e.1) with
      | some e => .error (.warning ("Coord " ++ e.1 ++ " not in column names"))
      | none => .ok entries
  | .strList l =>
    if l = [] then .error (.indexErr "list index out of range")
    else
      match l.find? (fun c => !columns.contains c) with
      | some c => .error (.warning ("Coord " ++ c ++ " not in column names"))
      | none => .ok (columns.map (fun col => (col, l.contains col)))
  | .boolList l =>
    if l = [] then .error (.indexErr "list index out of range")
    else if l.length ≠ columns.length then
      .error (.indexErr "Length of coords must match number of columns.")
    else .ok (columns.zip l)
  | .other =>
    .error (.typeErr "Coords must be in form [<str>], [<bool>], or {<key>: <bool>}.")

/-- The validated schema `NodeDataFrame.__init__` establishes before calling
the pandas constructor. -/
structure NodeSchema where
  columns : List String
  coords : List (String × Bool)
  units : List (String × String)
deriving DecidableEq

/-- Embeds `NodeDataFrame.__init__` (core.py 24-116) at schema level:
`columns` is what the pre-check derives from the data (the keys of a dict
or the columns of a frame). Order follows the source: the empty-columns
ValueError, then the units block, then the coords block, then the reserved
`_connections` column is appended if absent. The trailing pandas
constructor call and the two metadata pseudo-row writes carry no further
validation and are not modelled. -/
def nodeInit (columns : List String) (coords : CoordsSpec)
    (units : Option UnitsSpec) : Except PyErr NodeSchema :=
  if columns = [] then .error (.valueErr "At least one column must be named.")
  else
    match processUnits columns units with
    | .error e => .error e
    | .ok u =>
      match processCoords columns coords with
      | .error e => .error e
      | .ok c =>
        let cols := if columns.contains "_connections" then columns
          else columns ++ ["_connections"]
        .ok ⟨cols, c, u⟩

/-- A row of the searched table: the three coordinate columns `x`, `y`, `z`
read by `knn_coords`, plus all remaining columns of the row, untouched by
the search, collected in `extra`. -/
structure Row (α : Type) where
  x : ℚ
  y : ℚ
  z : ℚ
  extra : α
deriving DecidableEq

/-- Squared Euclidean distance from the query point to a row over the three
coordinate columns, as computed (before the square root) at core.py 279-280. -/
def dist2 {α : Type} (q : ℚ × ℚ × ℚ) (r : Row α) : ℚ :=
  (r.x - q.1) ^ 2 + (r.y - q.2.1) ^ 2 + (r.z - q.2.2) ^ 2

/-- Euclidean distance from the query point to a row, the `** (1/2)` of
core.py 279-280. -/
noncomputable def edist {α : Type} (q : ℚ × ℚ × ℚ) (r : Row α) : ℝ :=
  Real.sqrt ((dist2 q r : ℚ) : ℝ)

/-- The constant `bucketslop = 2` of core.py 256. -/
def bucketslop : ℕ := 2

/-- One round of the bucket selection of core.py 267-269: the rows whose
offsets from the query point lie strictly within `(-leg, leg)` on all three
axes. -/
def bucketFilter {α : Type} (df : List (Row α)) (q : ℚ × ℚ × ℚ) (leg : ℚ) :
    List (Row α) :=
  df.filter (fun r =>
    decide (r.x - q.1 > -leg) && decide (r.x - q.1 < leg) &&
    decide (r.y - q.2.1 > -leg) && decide (r.y - q.2.1 < leg) &&
    decide (r.z - q.2.2 > -leg) && decide (r.z - q.2.2 < leg))

/-- The `while len(bucket) < k * bucketslop` loop of core.py 266-271,
indexed by fuel: `none` means the loop has not exited within `fuel`
iterations, so a result of `none` for every fuel shows the source loop
never exits. Each iteration selects `bucketFilter df q leg` and doubles
`leg`. -/
def knnLoop {α : Type} (df : List (Row α)) (k : ℕ) (q : ℚ × ℚ × ℚ) :
    ℕ → ℚ → List (Row α) → Option (List (Row α))
  | fuel, leg, bucket =>
    if bucket.length < k * bucketslop then
      match fuel with
      | 0 => none
      | fuel + 1 => knnLoop df k q fuel (leg * 2) (bucketFilter df q leg)
    else some bucket

/-- Ordering of rows by distance to the query point. The source sorts by
the square-rooted distances (core.py 279-284); since the square root is
monotone on non-negative arguments this is the same ordering as by squared
distance, which keeps the relation decidable (`edist_le_iff_dist2_le`
below records the equivalence). -/
def distLE {α : Type} (q : ℚ × ℚ × ℚ) (a b : Row α) : Prop :=
  dist2 q a ≤ dist2 q b

instance {α : Type} (q : ℚ × ℚ × ℚ) : DecidableRel (@distLE α q) :=
  fun a b => inferInstanceAs (Decidable (dist2 q a ≤ dist2 q b))

/-- The selection step of core.py 279-289: pair every bucket row with its
distance to the query point, sort ascending by distance (Python's `sorted`,
a stable sort), take the first `k`, and return those rows of the bucket. -/
def knnSelect {α : Type} (q : ℚ × ℚ × ℚ) (k : ℕ) (bucket : List (Row α)) :
    List (Row α) :=
  (List.insertionSort (distLE q) bucket).take k

/-- Embeds `knn_coords` (core.py 233-289). `scale_length` follows Python
truthiness: `None` and `0` leave the bucket as the whole table; a non-zero
value enters the pre-filter loop with initial leg `k * scale_length / 2`.
`fuel` bounds the loop as in `knnLoop`. -/
def knn_coords {α : Type} (df : List (Row α)) (k : ℕ) (q : ℚ × ℚ × ℚ)
    (scale_length : Option ℚ) (fuel : ℕ) : Option (List (Row α)) :=
  let bucket? : Option (List (Row α)) :=
    match scale_length with
    | some L => if L = 0 then some df else knnLoop df k q fuel ((k : ℚ) * L / 2) []
    | none => some df
  bucket?.map (fun bucket => knnSelect q k bucket)

/-- Recognizes a ValueError result (used to state what `nodeInit` does not
raise). -/
def isValueErr {α : Type} : Except PyErr α → Bool
  | .error (.valueErr _) => true
  | _ => false

/-- Recognizes an IndexError result. -/
def isIndexErr {α : Type} : Except PyErr α → Bool
  | .error (.indexErr _) => true
  | _ => false

/-! ## Theorems -/

theorem get_dist_sq_cons (x y : ℚ) (a b : List ℚ) :
    get_dist_sq (x :: a) (y :: b) = (y - x) ^ 2 + get_dist_sq a b := by
  simp [get_dist_sq, List.zip]

theorem get_dist_sq_comm (a : List ℚ) : ∀ b : List ℚ,
    get_dist_sq a b = get_dist_sq b a := by
  induction a with
  | nil => intro b; simp [get_dist_sq]
  | cons x a ih =>
    intro b
    cases b with
    | nil => simp [get_dist_sq]
    | cons y b =>
      rw [get_dist_sq_cons, get_dist_sq_cons, ih b]
      ring

theorem zip_take_min (a : List ℚ) : ∀ b : List ℚ,
    (a.take (min a.length b.length)).zip (b.take (min a.length b.length)) = a.zip b := by
  induction a with
  | nil => intro b; simp
  | cons x a ih =>
    intro b
    cases b with
    | nil => simp
    | cons y b => simpa [Nat.succ_min_succ] using ih b

/-- C10: get_dist is symmetric in its two sequences, truncation included:
the zip truncates to the shorter list either way and each squared delta is
unchanged when the arguments swap. -/
theorem get_dist_symm (a b : List ℚ) : get_dist a b = get_dist b a := by
  unfold get_dist
  rw [get_dist_sq_comm]

/-- C4: get_dist computes the Euclidean distance over only the first
min(len seq1, len seq2) components of the two sequences and never fails on
unequal lengths; on [0,0,0] and [3,4,0] it returns 5 and on [1,2] and
[1,2,9] it truncates to the first two components and returns 0. -/
theorem get_dist_truncates :
    (∀ a b : List ℚ, get_dist a b =
      get_dist (a.take (min a.length b.length)) (b.take (min a.length b.length)))
    ∧ get_dist [0, 0, 0] [3, 4, 0] = 5 ∧ get_dist [1, 2] [1, 2, 9] = 0 := by
  refine ⟨fun a b => ?_, ?_, ?_⟩
  · unfold get_dist get_dist_sq
    rw [zip_take_min]
  · unfold get_dist
    rw [show get_dist_sq [0, 0, 0] [3, 4, 0] = 25 by norm_num [get_dist_sq]]
    rw [show ((25 : ℚ) : ℝ) = 5 ^ 2 by norm_num]
    exact Real.sqrt_sq (by norm_num)
  · unfold get_dist
    rw [show get_dist_sq [1, 2] [1, 2, 9] = 0 by norm_num [get_dist_sq]]
    simp

/-- C9: get_deltas raises IndexError on the empty sequence (the `del
deltas[0]` on an empty list), and on any non-empty sequence of length n it
returns a list of length n - 1. -/
theorem get_deltas_spec :
    get_deltas ([] : List ℚ) = .error (.indexErr "list assignment index out of range")
    ∧ ∀ l : List ℚ, l ≠ [] → ∃ r, get_deltas l = .ok r ∧ r.length = l.length - 1 := by
  constructor
  · rfl
  · intro l hl
    match l, hl with
    | x :: xs, _ =>
      refine ⟨List.zipWith (fun off it => it - off) (x :: xs) xs, rfl, ?_⟩
      simp [List.length_zipWith]

/-- C3: evaluation of get_cubic_weight at the claim's inputs. Over [1,2]
the weights are 8/9 and 1/9 as claimed, but over [0,1] both weights are 0:
the 0/0 entry is NaN, pandas sums it away (skipna), the division of the
whole series by the resulting sum 0 turns every entry into NaN, and
fillna(0) zeroes them all, so the weights sum to 0 rather than 1. -/
theorem get_cubic_weight_eval :
    get_cubic_weight [1, 2] = [.fin (8 / 9), .fin (1 / 9)]
    ∧ get_cubic_weight [0, 1] = [.fin 0, .fin 0] := by
  constructor
  · norm_num [get_cubic_weight, pfSum, pfDiv, pfMul, pfPow3, fillna0, List.min?, pfAdd,
      List.foldl, List.filter]
    exact ⟨fun h => PFloat.noConfusion h, fun h => PFloat.noConfusion h⟩
  · norm_num [get_cubic_weight, pfSum, pfDiv, pfMul, pfPow3, fillna0, List.min?, pfAdd,
      List.foldl, List.filter]

/-- C5: both malformed-units cases of the claim abort construction with an
escaping Warning exception instead of proceeding without units: a positional
list whose length does not match the column count, and a value that is
neither a mapping nor a list. The `units = {}` after each raise is dead
code. -/
theorem nodeInit_malformed_units_raises :
    nodeInit ["x", "y", "z"] (.strList ["x", "y", "z"]) (some (.list ["m"]))
      = .error (.warning "Number of units doesnt match number of columns.")
    ∧ nodeInit ["x", "y", "z"] (.strList ["x", "y", "z"]) (some .scalar)
      = .error (.warning "Ill-defined units. Proceeding without units.") :=
  ⟨rfl, rfl⟩

theorem processCoords_boolList_err (columns : List String) (l : List Bool)
    (hl : l.length ≠ columns.length) :
    ∃ m, processCoords columns (.boolList l) = .error (.indexErr m) := by
  by_cases h : l = []
  · subst h
    simp [processCoords]
  · refine ⟨"Length of coords must match number of columns.", ?_⟩
    simp [processCoords, h, hl]

/-- C6 counterexample: a boolean-list coordinate specification of the wrong
length makes construction fail with an IndexError, not with a ValueError:
on columns [a, b] and coords [true] the result is the IndexError of
core.py 95 and is not a ValueError. -/
theorem nodeInit_boolList_mismatch_counterexample :
    nodeInit ["a", "b"] (.boolList [true]) none
      = .error (.indexErr "Length of coords must match number of columns.")
    ∧ isValueErr (nodeInit ["a", "b"] (.boolList [true]) none) = false :=
  ⟨rfl, rfl⟩

/-- C6 amended: node table construction fails with an IndexError (not a
ValueError) whenever the coordinate specification is a list of booleans
whose length does not equal the number of columns. -/
theorem nodeInit_boolList_mismatch_indexErr (columns : List String) (l : List Bool)
    (hc : columns ≠ []) (hl : l.length ≠ columns.length) :
    isIndexErr (nodeInit columns (.boolList l) none) = true := by
  obtain ⟨m, hm⟩ := processCoords_boolList_err columns l hl
  simp [nodeInit, hc, processUnits, hm, isIndexErr]

theorem nodeInit_boolList_mismatch_indexErr_witness :
    (["a", "b"] : List String) ≠ []
    ∧ ([true] : List Bool).length ≠ (["a", "b"] : List String).length
    ∧ isIndexErr (nodeInit ["a", "b"] (.boolList [true]) none) = true :=
  ⟨by decide, by decide,
    nodeInit_boolList_mismatch_indexErr ["a", "b"] [true] (by decide) (by decide)⟩

/-- C8 counterexample: calling linterp_1D with the non-None ignore list []
does not mutate the caller's list: `if ignore:` is falsy on an empty list,
so a fresh [colname] is bound instead and the caller's list stays empty
rather than growing to length 1. -/
theorem linterp_1D_ignore_empty_counterexample :
    (linterp_1D_ignore (some []) "x").1 = some []
    ∧ ((linterp_1D_ignore (some []) "x").1).map List.length ≠ some 1 := by
  constructor
  · rfl
  · intro h
    simp [linterp_1D_ignore] at h

/-- C8 amended: linterp_1D appends the interpolation axis onto the caller's
ignore list (mutating it, growing it by one element) exactly when that list
is non-empty; when ignore is None or the empty list a fresh [colname] is
created and the caller's argument is untouched. -/
theorem linterp_1D_ignore_spec (l : List String) (c : String) (hl : l ≠ []) :
    linterp_1D_ignore (some l) c = (some (l ++ [c]), l ++ [c])
    ∧ linterp_1D_ignore none c = (none, [c])
    ∧ linterp_1D_ignore (some []) c = (some [], [c]) := by
  refine ⟨?_, rfl, rfl⟩
  simp [linterp_1D_ignore, hl]

theorem linterp_1D_ignore_spec_witness :
    (["a"] : List String) ≠ []
    ∧ (linterp_1D_ignore (some ["a"]) "x" = (some (["a"] ++ ["x"]), ["a"] ++ ["x"])
      ∧ linterp_1D_ignore none "x" = (none, ["x"])
      ∧ linterp_1D_ignore (some []) "x" = (some [], ["x"])) :=
  ⟨by decide, linterp_1D_ignore_spec ["a"] "x" (by decide)⟩

theorem knnLoop_eq_none {α : Type} (df : List (Row α)) (k : ℕ) (q : ℚ × ℚ × ℚ)
    (hdf : df.length < k * bucketslop) :
    ∀ (fuel : ℕ) (leg : ℚ) (bucket : List (Row α)),
      bucket.length < k * bucketslop → knnLoop df k q fuel leg bucket = none := by
  intro fuel
  induction fuel with
  | zero =>
    intro leg bucket hb
    simp [knnLoop, hb]
  | succ n ih =>
    intro leg bucket hb
    rw [knnLoop, if_pos hb]
    exact ih (leg * 2) (bucketFilter df q leg)
      (lt_of_le_of_lt (List.length_filter_le _ _) hdf)

/-- C2: the pre-filter loop of knn_coords never exits when the whole table
has fewer than 2k rows: every candidate bucket is a filter of the table, so
`len(bucket) < k * bucketslop` stays true forever and `h` growing
unboundedly does not help. On a one-row table with k = 1, query (0,0,0) and
scale_length 1, the call has not returned after any number of loop
iterations. -/
theorem knn_coords_small_table_never_returns (fuel : ℕ) :
    knn_coords [(⟨0, 0, 0, ()⟩ : Row Unit)] 1 (0, 0, 0) (some 1) fuel = none := by
  have h : ∀ leg : ℚ,
      knnLoop [(⟨0, 0, 0, ()⟩ : Row Unit)] 1 (0, 0, 0) fuel leg [] = none :=
    fun leg => knnLoop_eq_none _ _ _ (by simp [bucketslop]) fuel leg [] (by simp [bucketslop])
  simp only [knn_coords]
  rw [if_neg (one_ne_zero : (1 : ℚ) ≠ 0), h]
  rfl

theorem pd_dist_aux_ok {s1 s2 : PdSeries} : ∀ (coords : List String) (t : ℚ),
    (∀ c ∈ coords, seriesHas s1 c = true ∧ seriesHas s2 c = true) →
    ∃ r, pd_dist_aux s1 s2 coords t = .ok r := by
  intro coords
  induction coords with
  | nil => exact fun t _ => ⟨t, rfl⟩
  | cons c rest ih =>
    intro t h
    have hc := h c (List.mem_cons_self c rest)
    rw [pd_dist_aux, if_pos (by rw [hc.1, hc.2]; rfl)]
    exact ih _ (fun d hd => h d (List.mem_cons_of_mem _ hd))

theorem pd_dist_aux_err {s1 s2 : PdSeries} : ∀ (coords : List String) (t : ℚ) (c : String),
    coords.find? (fun a => !(seriesHas s1 a && seriesHas s2 a)) = some c →
    pd_dist_aux s1 s2 coords t = .error (.keyErr ("Key " ++ c ++ " missing from series.")) := by
  intro coords
  induction coords with
  | nil => intro t c h; simp at h
  | cons d rest ih =>
    intro t c h
    cases hd : (seriesHas s1 d && seriesHas s2 d) with
    | true =>
      rw [List.find?_cons_of_neg _ (by simp [hd])] at h
      rw [pd_dist_aux, if_pos hd]
      exact ih _ c h
    | false =>
      rw [List.find?_cons_of_pos _ (by simp [hd])] at h
      cases h
      rw [pd_dist_aux, if_neg (by simp [hd])]

theorem pd_dist_aux_err_inv {s1 s2 : PdSeries} : ∀ (coords : List String) (t : ℚ) (e : PyErr),
    pd_dist_aux s1 s2 coords t = .error e →
    ∃ c, coords.find? (fun a => !(seriesHas s1 a && seriesHas s2 a)) = some c
      ∧ e = .keyErr ("Key " ++ c ++ " missing from series.") := by
  intro coords
  induction coords with
  | nil => intro t e h; exact absurd h (by simp [pd_dist_aux])
  | cons d rest ih =>
    intro t e h
    cases hd : (seriesHas s1 d && seriesHas s2 d) with
    | true =>
      rw [pd_dist_aux, if_pos hd] at h
      obtain ⟨c, hc1, hc2⟩ := ih _ e h
      refine ⟨c, ?_, hc2⟩
      rw [List.find?_cons_of_neg _ (by simp [hd])]
      exact hc1
    | false =>
      rw [pd_dist_aux, if_neg (by simp [hd])] at h
      cases h
      exact ⟨d, by rw [List.find?_cons_of_pos _ (by simp [hd])], rfl⟩

theorem pd_dist_ok_iff (s1 s2 : PdSeries) (coords : List String) :
    (∃ r, pd_dist s1 s2 coords = .ok r) ↔
      ∀ c ∈ coords, seriesHas s1 c = true ∧ seriesHas s2 c = true := by
  constructor
  · rintro ⟨r, hr⟩ c hc
    by_contra hnc
    have hp : (fun a => !(seriesHas s1 a && seriesHas s2 a)) c = true := by
      cases hs1 : seriesHas s1 c <;> cases hs2 : seriesHas s2 c <;> simp_all
    have hsome : (coords.find? (fun a => !(seriesHas s1 a && seriesHas s2 a))).isSome =
        true := List.find?_isSome.mpr ⟨c, hc, hp⟩
    obtain ⟨c', hc'⟩ := Option.isSome_iff_exists.mp hsome
    rw [pd_dist, pd_dist_aux_err coords 0 c' hc'] at hr
    exact Except.noConfusion hr
  · intro h
    obtain ⟨v, hv⟩ := pd_dist_aux_ok coords 0 h
    exact ⟨_, by rw [pd_dist, hv]; rfl⟩

theorem pd_dist_err (s1 s2 : PdSeries) (coords : List String) :
    ∀ c, coords.find? (fun a => !(seriesHas s1 a && seriesHas s2 a)) = some c →
      pd_dist s1 s2 coords = .error (.keyErr ("Key " ++ c ++ " missing from series.")) := by
  intro c h
  rw [pd_dist, pd_dist_aux_err coords 0 c h]
  rfl

theorem pd_dist_err_inv (s1 s2 : PdSeries) (coords : List String) :
    ∀ e, pd_dist s1 s2 coords = .error e →
      ∃ c, c ∈ coords ∧ ¬(seriesHas s1 c = true ∧ seriesHas s2 c = true)
        ∧ e = .keyErr ("Key " ++ c ++ " missing from series.") := by
  intro e h
  rw [pd_dist] at h
  cases haux : pd_dist_aux s1 s2 coords 0 with
  | ok v => rw [haux] at h; exact absurd h (by simp [Except.map])
  | error e2 =>
    rw [haux] at h
    have he : e2 = e := by
      simpa [Except.map] using h
    subst he
    obtain ⟨c, hc1, hc2⟩ := pd_dist_aux_err_inv coords 0 e2 haux
    have hpc := List.find?_some hc1
    refine ⟨c, List.mem_of_find?_eq_some hc1, ?_, hc2⟩
    intro hboth
    rw [hboth.1, hboth.2] at hpc
    exact Bool.noConfusion hpc

/-- C7: pd_dist returns the Euclidean distance over the named coordinate
axes (on point (1,2,2) against the default origin over [x,y,z] it returns
3), and it raises a KeyError naming the offending axis if and only if some
requested axis is absent from either point's labels; the axis named is the
first missing one in the requested order. -/
theorem pd_dist_spec :
    (∀ (s1 s2 : PdSeries) (coords : List String),
      ((∃ r, pd_dist s1 s2 coords = .ok r) ↔
        ∀ c ∈ coords, seriesHas s1 c = true ∧ seriesHas s2 c = true)
      ∧ (∀ c, coords.find? (fun a => !(seriesHas s1 a && seriesHas s2 a)) = some c →
          pd_dist s1 s2 coords = .error (.keyErr ("Key " ++ c ++ " missing from series.")))
      ∧ (∀ e, pd_dist s1 s2 coords = .error e →
          ∃ c, c ∈ coords ∧ ¬(seriesHas s1 c = true ∧ seriesHas s2 c = true)
            ∧ e = .keyErr ("Key " ++ c ++ " missing from series.")))
    ∧ pd_dist [("x", 1), ("y", 2), ("z", 2)] pdOrigin ["x", "y", "z"] = .ok 3 := by
  refine ⟨fun s1 s2 coords =>
    ⟨pd_dist_ok_iff s1 s2 coords, pd_dist_err s1 s2 coords, pd_dist_err_inv s1 s2 coords⟩, ?_⟩
  have haux : pd_dist_aux [("x", 1), ("y", 2), ("z", 2)] pdOrigin ["x", "y", "z"] 0 = .ok 9 := by
    simp [pd_dist_aux, seriesHas, seriesGet, pdOrigin, List.lookup]
    norm_num
  have h3 : Real.sqrt ((9 : ℚ) : ℝ) = 3 := by
    rw [show ((9 : ℚ) : ℝ) = 3 ^ 2 by norm_num]
    exact Real.sqrt_sq (by norm_num)
  rw [pd_dist, haux]
  show Except.ok (Real.sqrt ((9 : ℚ) : ℝ)) = Except.ok 3
  rw [h3]

theorem dist2_nonneg {α : Type} (q : ℚ × ℚ × ℚ) (r : Row α) : 0 ≤ dist2 q r := by
  unfold dist2
  positivity

theorem edist_le_iff_dist2_le {α : Type} (q : ℚ × ℚ × ℚ) (a b : Row α) :
    edist q a ≤ edist q b ↔ dist2 q a ≤ dist2 q b := by
  unfold edist
  rw [Real.sqrt_le_sqrt_iff (by exact_mod_cast dist2_nonneg q b)]
  exact_mod_cast Iff.rfl

/-- C1: with no characteristic length the bucket is the whole table, and
knn_coords returns rows of the table (each row intact, so all original
columns are preserved), sorted ascending by Euclidean distance to the query
point, of length min k n; every returned row is at least as close as every
row left out, so these are the k rows with smallest distance. When k
exceeds the row count the result is all rows sorted by distance. -/
theorem knn_coords_none_correct {α : Type} (df : List (Row α)) (k : ℕ)
    (q : ℚ × ℚ × ℚ) (fuel : ℕ) :
    ∃ res rest : List (Row α),
      knn_coords df k q none fuel = some res
      ∧ df.Perm (res ++ rest)
      ∧ List.Sorted (fun a b => edist q a ≤ edist q b) res
      ∧ res.length = min k df.length
      ∧ ∀ a ∈ res, ∀ b ∈ rest, edist q a ≤ edist q b := by
  haveI : IsTotal (Row α) (distLE q) := ⟨fun a b => le_total _ _⟩
  haveI : IsTrans (Row α) (distLE q) := ⟨fun a b c => le_trans⟩
  have hs : List.Sorted (distLE q) (List.insertionSort (distLE q) df) :=
    List.sorted_insertionSort (distLE q) df
  have hsplit : List.Pairwise (distLE q)
      ((List.insertionSort (distLE q) df).take k ++
        (List.insertionSort (distLE q) df).drop k) := by
    rwa [List.take_append_drop]
  refine ⟨(List.insertionSort (distLE q) df).take k,
    (List.insertionSort (distLE q) df).drop k, rfl, ?_, ?_, ?_, ?_⟩
  · rw [List.take_append_drop]
    exact (List.perm_insertionSort (distLE q) df).symm
  · exact (List.Pairwise.sublist (List.take_sublist k _) hs).imp
      (fun h => (edist_le_iff_dist2_le q _ _).mpr h)
  · rw [List.length_take, (List.perm_insertionSort (distLE q) df).length_eq]
  · intro a ha b hb
    exact (edist_le_iff_dist2_le q a b).mpr
      ((List.pairwise_append.mp hsplit).2.2 a ha b hb)

end Phynum
